import Mathlib

/-!
Verification of the whatsapp-backend repository against its natural-language
specification.  The definitions below are a shallow embedding of the
JavaScript source:

* `ClientState`, `ClientEvent`, `step`, `run` embed the module-level globals
  and the event handlers of `src/whatsapp-client.js` (the current revision,
  the one required by `src/server.js`).
* `checkSessionHealth` and `healthCheckTick` embed the periodic liveness
  check of `startSessionHealthChecks` / `checkSessionHealth`.
* `sendWhatsAppMessage` embeds the send operation.
* `SessionRow`, `storeSession`, `retrieveSession`, `deactivateSession`,
  `deleteSessionRows` embed the Supabase table operations of
  `src/supabase.js`.
* `AuthStrategy`, `mkStrategy`, `strategyGetSession`, `strategySetSession`,
  `strategyDeleteSession` embed `SupabaseAuthStrategy`
  (`src/supabase-auth-strategy.js`).
* `FileSystem`, `validateSessionDirectoryFS`, `initializeClientFS` embed the
  file-system effects of client initialization.
-/

namespace WhatsappBackend

/-! ## Connection supervisor state (globals of `src/whatsapp-client.js`)

The JavaScript module keeps its state in module-level variables:
`whatsappClient` (the underlying library handle, embedded as `hasClient`),
`isClientReady`, `connectionStatus`, `qrCodeData`, `sessionCheckInterval`
(embedded as `healthChecksActive`) and `loadingProgress`.  Two kinds of
pending internal callbacks are tracked so that timer-driven code can be
stepped explicitly: `settleTimers` counts the 3-second `setTimeout`
callbacks scheduled by the `loading_screen` handler at 100%, and
`probePending`/`probeAttempt` track the `testClientReady` retry chain
spawned by the `authenticated` handler.  `exitCalls` counts invocations of
`process.exit`. -/
structure ClientState where
  hasClient : Bool
  isClientReady : Bool
  connectionStatus : String
  qrCodeData : Option String
  loadingProgress : Nat
  healthChecksActive : Bool
  settleTimers : Nat
  probePending : Bool
  probeAttempt : Nat
  exitCalls : Nat
  deriving Repr, DecidableEq

/-- Initial values of the module-level globals. -/
def initialClientState : ClientState :=
  { hasClient := false
    isClientReady := false
    connectionStatus := "disconnected"
    qrCodeData := none
    loadingProgress := 0
    healthChecksActive := false
    settleTimers := 0
    probePending := false
    probeAttempt := 0
    exitCalls := 0 }

/-- `QRCode.toDataURL`, abstracted: an injective rendering of the raw token. -/
def qrToDataURL (qr : String) : String :=
  "data:image/png;base64," ++ qr

/-- Events processed by the handlers registered in `initializeWhatsAppClient`
(`src/whatsapp-client.js`).  The first six constructors are the events the
underlying whatsapp-web.js library emits (`genOk` is whether
`QRCode.toDataURL` succeeds); `settleFire` is the 3-second settle timer
scheduled by the `loading_screen` handler at 100%; `probeFire` is one
invocation of the `testClientReady` probe, carrying the observed
`getState()` value and whether the `window.WWebJS` page evaluation
succeeds. -/
inductive ClientEvent where
  | qr (payload : String) (genOk : Bool)
  | authenticated
  | ready
  | authFailure (msg : String)
  | disconnected (reason : String)
  | loadingScreen (percent : Nat)
  | settleFire
  | probeFire (state : String) (wwebjsLoaded : Bool)
  deriving Repr, DecidableEq

/-- States `checkSessionHealth` accepts as healthy. -/
def validStates : List String :=
  ["CONNECTED", "OPEN", "CONNECTED_READY"]

/-- One event-handler invocation, transcribed handler by handler from
`src/whatsapp-client.js` lines 216–351. -/
def step (s : ClientState) (e : ClientEvent) : ClientState :=
  match e with
  | .qr payload genOk =>
      -- `qr` handler: on success store the DataURL and move to `qr_ready`;
      -- on a `QRCode.toDataURL` failure only the status changes.
      if genOk then
        { s with qrCodeData := some (qrToDataURL payload),
                 connectionStatus := "qr_ready" }
      else
        { s with connectionStatus := "qr_error" }
  | .authenticated =>
      -- `authenticated` handler: clears the QR code and spawns the
      -- `testClientReady` probe chain (first attempt number 1, max 20).
      { s with connectionStatus := "authenticated", qrCodeData := none,
               probePending := true, probeAttempt := 1 }
  | .ready =>
      -- `ready` handler.
      { s with isClientReady := true, connectionStatus := "ready",
               qrCodeData := none, loadingProgress := 100,
               healthChecksActive := true }
  | .authFailure _ =>
      -- `auth_failure` handler (the scheduled `handleClientFailure` call is
      -- outside the handler itself).
      { s with isClientReady := false, connectionStatus := "auth_failure",
               qrCodeData := none, healthChecksActive := false }
  | .disconnected reason =>
      -- `disconnected` handler: stop health checks, clear the QR code, and
      -- call `process.exit(1)` unless the reason is `MANUAL_DISCONNECT`.
      { s with isClientReady := false, connectionStatus := "disconnected",
               qrCodeData := none, healthChecksActive := false,
               exitCalls :=
                 if reason = "MANUAL_DISCONNECT" then s.exitCalls
                 else s.exitCalls + 1 }
  | .loadingScreen percent =>
      -- `loading_screen` handler: records progress, sets status `loading`,
      -- and at 100% schedules the 3-second settle timer.
      { s with loadingProgress := percent, connectionStatus := "loading",
               settleTimers :=
                 if percent = 100 then s.settleTimers + 1 else s.settleTimers }
  | .settleFire =>
      -- The settle timer body: `if (!isClientReady) { isClientReady = true;
      -- connectionStatus = 'ready'; startSessionHealthChecks(); }`.
      if s.settleTimers = 0 then s
      else
        let s1 := { s with settleTimers := s.settleTimers - 1 }
        if s1.isClientReady then s1
        else
          { s1 with isClientReady := true, connectionStatus := "ready",
                    healthChecksActive := true }
  | .probeFire state wwebjsLoaded =>
      -- One `testClientReady(attempt)` invocation: returns early when the
      -- client is already ready; declares readiness when `getState()` is
      -- CONNECTED and the `window.WWebJS` check passes; otherwise retries
      -- up to attempt 20.
      if !s.probePending then s
      else if s.isClientReady then { s with probePending := false }
      else if state = "CONNECTED" && wwebjsLoaded then
        { s with isClientReady := true, connectionStatus := "ready",
                 loadingProgress := 100, healthChecksActive := true,
                 probePending := false }
      else if s.probeAttempt < 20 then
        { s with probeAttempt := s.probeAttempt + 1 }
      else
        { s with probePending := false }

/-- Run a sequence of events from the initial global state. -/
def run (evs : List ClientEvent) : ClientState :=
  evs.foldl step initialClientState

/-! ## Periodic liveness check (`checkSessionHealth`, `startSessionHealthChecks`) -/

/-- `checkSessionHealth` (`src/whatsapp-client.js` lines 72–97): false when
the client handle is absent or the ready flag is down, otherwise whether the
observed `getState()` value is in `validStates`.  A `getState()` exception
also yields `false`; it is represented by an observation outside
`validStates`, which takes the same return path with no other state
effect. -/
def checkSessionHealth (s : ClientState) (observedState : String) : Bool :=
  if !s.hasClient || !s.isClientReady then false
  else validStates.contains observedState

/-- One firing of the interval body installed by `startSessionHealthChecks`
(`src/whatsapp-client.js` lines 130–150): an unhealthy first check while
ready is re-checked once after the 30-second grace delay; if still unhealthy
while ready, `handleClientFailure` stops the health checks and calls
`process.exit(1)`.  `st1` and `st2` are the two `getState()` observations. -/
def healthCheckTick (s : ClientState) (st1 st2 : String) : ClientState :=
  let isHealthy := checkSessionHealth s st1
  if !isHealthy && s.isClientReady then
    let isStillHealthy := checkSessionHealth s st2
    if !isStillHealthy && s.isClientReady then
      { s with healthChecksActive := false, exitCalls := s.exitCalls + 1 }
    else s
  else s

/-! ## Sending messages (`sendWhatsAppMessage`) -/

/-- JavaScript `String.prototype.includes` on character lists. -/
def containsSub : List Char → List Char → Bool
  | [], sub => sub.isEmpty
  | c :: t, sub => sub.isPrefixOf (c :: t) || containsSub t sub

/-- `number.includes(sub)` from the source. -/
def jsIncludes (s sub : String) : Bool :=
  containsSub s.data sub.data

/-- The result object of `whatsappClient.sendMessage`: a serialized message
id and a server timestamp. -/
structure LibMessage where
  idSerialized : String
  timestamp : Nat
  deriving Repr, DecidableEq

/-- Return value of `sendWhatsAppMessage`: the success object (message id,
timestamp, formatted recipient) or the `{success:false, error}` object built
in the `catch` block. -/
inductive SendResult where
  | sent (messageId : String) (timestamp : Nat) (recipient : String)
  | failed (error : String)
  deriving Repr, DecidableEq

/-- `sendWhatsAppMessage` (`src/whatsapp-client.js` lines 514–557).  `lib` is
the underlying library's send operation (`Except.error` is a thrown send
error).  Besides the result, the embedding returns the list of
`(chatId, message)` calls made into the library and the (unchanged) global
state: the source function reads `isClientReady` and `whatsappClient` but
assigns no global. -/
def sendWhatsAppMessage (s : ClientState) (number message : String)
    (lib : String → String → Except String LibMessage) :
    SendResult × List (String × String) × ClientState :=
  if !s.isClientReady || !s.hasClient then
    (.failed "WhatsApp client is not ready", [], s)
  else if number = "" || message = "" then
    (.failed "Phone number and message are required", [], s)
  else
    let formattedNumber :=
      if jsIncludes number "@c.us" then number else number ++ "@c.us"
    match lib formattedNumber message with
    | .ok r => (.sent r.idSerialized r.timestamp formattedNumber,
                [(formattedNumber, message)], s)
    | .error e => (.failed e, [(formattedNumber, message)], s)

/-! ## Supabase session table (`src/supabase.js`)

The `whatsapp_sessions` table is embedded as a list of rows; the `client_id`
column carries a unique constraint (`onConflict: 'client_id'`), expressed
where needed as a hypothesis bounding the number of rows per client id. -/

/-- One row of `whatsapp_sessions` (modelled columns only). -/
structure SessionRow where
  client_id : String
  session_data : String
  is_active : Bool
  updated_at : Nat
  deriving Repr, DecidableEq

/-- Supabase `upsert(..., { onConflict: 'client_id' })`: replace the row
with the same `client_id`, or append a new row. -/
def upsertByClientId (db : List SessionRow) (r : SessionRow) : List SessionRow :=
  if db.any (fun x => x.client_id == r.client_id) then
    db.map (fun x => if x.client_id == r.client_id then r else x)
  else db ++ [r]

/-- `storeSession` (`src/supabase.js` lines 76–111): upsert of
`{client_id, session_data, updated_at, is_active: true}`; on a backend error
the table is untouched and `{success:false}` is returned.  Result: new table
contents and the success flag. -/
def storeSession (db : List SessionRow) (clientId sessionData : String)
    (now : Nat) (backendError : Bool) : List SessionRow × Bool :=
  if backendError then (db, false)
  else
    (upsertByClientId db
      { client_id := clientId, session_data := sessionData,
        is_active := true, updated_at := now }, true)

/-- `retrieveSession` (`src/supabase.js` lines 118–157):
`select('*').eq('client_id', clientId).eq('is_active', true).single()`.
Zero rows is PostgREST error PGRST116, which the source maps to the failure
result `'Session not found'`; more than one row is a different `.single()`
error whose message is passed through. -/
def retrieveSession (db : List SessionRow) (clientId : String) :
    Except String String :=
  match db.filter (fun r => r.client_id == clientId && r.is_active) with
  | [r] => .ok r.session_data
  | [] => .error "Session not found"
  | _ => .error "JSON object requested, multiple (or no) rows returned"

/-- `deleteSession` (`src/supabase.js` lines 205–233):
`delete().eq('client_id', clientId)`. -/
def deleteSessionRows (db : List SessionRow) (clientId : String) :
    List SessionRow :=
  db.filter (fun r => !(r.client_id == clientId))

/-- `deactivateSession` (`src/supabase.js` lines 240–271):
`update({is_active: false, updated_at: now}).eq('client_id', clientId)`; on
a backend error the table is untouched and `{success:false}` is returned. -/
def deactivateSession (db : List SessionRow) (clientId : String) (now : Nat)
    (backendError : Bool) : List SessionRow × Bool :=
  if backendError then (db, false)
  else
    (db.map (fun r =>
      if r.client_id == clientId then
        { r with is_active := false, updated_at := now }
      else r), true)

/-! ## Local session files

The local backend keeps one file per client identity.  The file system seen
by `fs` is embedded as an association list from full path to contents. -/

/-- `fs.unlinkSync p` on the file map. -/
def eraseFile (files : List (String × String)) (p : String) :
    List (String × String) :=
  files.filter (fun e => !(e.1 == p))

/-- `fs.writeFileSync p v` on the file map (overwrite semantics). -/
def insertFile (files : List (String × String)) (p v : String) :
    List (String × String) :=
  (p, v) :: eraseFile files p

/-- `fs.readFileSync p` on the file map (`none` when the file is absent). -/
def lookupFile (files : List (String × String)) (p : String) :
    Option String :=
  (files.find? (fun e => e.1 == p)).map (fun e => e.2)

/-- `SupabaseAuthStrategy.getSessionFilePath`
(`src/supabase-auth-strategy.js`): `path.join(dataPath, clientId + ".json")`. -/
def getSessionFilePath (dataPath clientId : String) : String :=
  dataPath ++ "/" ++ clientId ++ ".json"

/-- Modelled from the spec: `super.setSession` is `LocalAuth`'s local save,
an external library routine not in this repository; per spec §6 the local
backend stores one file per client identity, matching the repository's own
`migrateToLocal`, which writes the payload to `getSessionFilePath`. -/
def setLocalSession (files : List (String × String))
    (dataPath clientId payload : String) : List (String × String) :=
  insertFile files (getSessionFilePath dataPath clientId) payload

/-- Modelled from the spec: `super.getSession` is `LocalAuth`'s local load,
an external library routine not in this repository; per spec §6 it reads the
per-client session file, matching the repository's own `migrateToSupabase`,
which reads the payload from `getSessionFilePath`. -/
def getLocalSession (files : List (String × String))
    (dataPath clientId : String) : Option String :=
  lookupFile files (getSessionFilePath dataPath clientId)

/-! ## SupabaseAuthStrategy (`src/supabase-auth-strategy.js`) -/

/-- Outcome the `ensureSessionsTable` probe would report if it ran during
strategy construction: the query succeeds (`ok`), failure is reported by
returning `false` (`probeFail` — this is what `ensureSessionsTable` in
`src/supabase.js` does on any query error, since it catches internally), or
an exception escapes (`thrown`).  Kept as a parameter of `mkStrategy` to
state that construction fails the same way for every outcome. -/
inductive EnsureOutcome where
  | ok
  | probeFail
  | thrown
  deriving Repr, DecidableEq

/-- The strategy fields the constructor attempts to assign before calling
`super(options)`. -/
structure AuthStrategy where
  clientId : String
  dataPath : String
  useSupabase : Bool
  deriving Repr, DecidableEq

/-- The `SupabaseAuthStrategy` constructor under JavaScript derived-class
semantics.  The class `extends LocalAuth`, so inside the constructor the
`this` binding stays uninitialized until `super(options)` has run; the
constructor's first statement is
`this.clientId = options.clientId || process.env.CLIENT_ID || 'default-client'`,
and `super(options)` is only called several statements later, so every
construction throws a `ReferenceError` at that first statement (the program
runs on plain Node 18, `node src/server.js`, with no transpiler).  The
remaining statements — the other field assignments, the `super(options)`
call, and the `ensureSupabaseTable` dispatch with its fallback `catch` —
are dead code: the backend-selection flags and the probe outcome cannot
influence the result.  The stored message is the V8 text with its inner
quotation marks omitted. -/
def mkStrategy (_nodeEnvProduction _useSupabaseFlag : Bool)
    (_clientId _dataPath : String) (_outcome : EnsureOutcome) :
    Except String AuthStrategy :=
  .error "ReferenceError: Must call super constructor in derived class before accessing this or returning from derived constructor"

/-! ## File-system effects of client initialization
(`src/whatsapp-client.js` lines 36–66 and 170–185) -/

/-- Directories plus regular files. -/
structure FileSystem where
  dirs : List String
  files : List (String × String)
  deriving Repr, DecidableEq

/-- `validateSessionDirectory`: create the session directory if absent, then
probe writability by writing and unlinking `sessionPath + "/.test"`. -/
def validateSessionDirectoryFS (fs : FileSystem) (sessionPath : String) :
    FileSystem :=
  let fs1 : FileSystem :=
    if fs.dirs.contains sessionPath then fs
    else { fs with dirs := sessionPath :: fs.dirs }
  let testFile := sessionPath ++ "/.test"
  let fs2 : FileSystem := { fs1 with files := insertFile fs1.files testFile "test" }
  { fs2 with files := eraseFile fs2.files testFile }

/-- `cleanupCorruptedSessions` in the current client revision
(`src/whatsapp-client.js` lines 63–66): disabled, it only logs and touches
no file. -/
def cleanupCorruptedSessionsFS (fs : FileSystem) : FileSystem :=
  fs

/-- The file-system effects of `initializeWhatsAppClient`
(`src/whatsapp-client.js` lines 170–185): the directory validation runs;
session cleanup is not invoked (the function only logs that cleanup is
disabled); nothing else in the function touches the session directory. -/
def initializeClientFS (fs : FileSystem) (sessionPath : String) : FileSystem :=
  validateSessionDirectoryFS fs sessionPath

/-! ## Auxiliary definitions used by the theorems and witnesses -/

/-- Auxiliary invariant for the QR-artifact analysis: the status/artifact
relationships that do hold in every reachable state. -/
def QrInv (s : ClientState) : Prop :=
  (s.connectionStatus = "qr_ready" → s.qrCodeData ≠ none) ∧
  (s.connectionStatus = "authenticated" → s.qrCodeData = none) ∧
  (s.connectionStatus = "auth_failure" → s.qrCodeData = none) ∧
  (s.connectionStatus = "disconnected" → s.qrCodeData = none)

/-- A concrete ready-and-connected global state, as left by the `ready`
handler on a created client. -/
def demoReadyState : ClientState :=
  { initialClientState with
      hasClient := true, isClientReady := true,
      connectionStatus := "ready", loadingProgress := 100,
      healthChecksActive := true }

/-- A concrete active session row used by witnesses. -/
def demoRow : SessionRow :=
  { client_id := "default-client", session_data := "blob42",
    is_active := true, updated_at := 0 }

/-- A concrete file system holding one session file. -/
def demoFS : FileSystem :=
  { dirs := ["./whatsapp-session"],
    files := [("./whatsapp-session/session.json", "sess")] }

/-! ## Theorems -/

lemma qrInv_initial : QrInv initialClientState := by
  refine ⟨?_, ?_, ?_, ?_⟩ <;> intro h <;> simp [initialClientState] at h ⊢

lemma qrInv_step (s : ClientState) (e : ClientEvent) (h : QrInv s) :
    QrInv (step s e) := by
  obtain ⟨h1, h2, h3, h4⟩ := h
  cases e with
  | qr payload genOk =>
      cases genOk <;> refine ⟨?_, ?_, ?_, ?_⟩ <;> intro hc <;>
        simp [step] at hc ⊢
  | authenticated =>
      refine ⟨?_, ?_, ?_, ?_⟩ <;> intro hc <;> simp [step] at hc ⊢
  | ready =>
      refine ⟨?_, ?_, ?_, ?_⟩ <;> intro hc <;> simp [step] at hc ⊢
  | authFailure msg =>
      refine ⟨?_, ?_, ?_, ?_⟩ <;> intro hc <;> simp [step] at hc ⊢
  | disconnected reason =>
      refine ⟨?_, ?_, ?_, ?_⟩ <;> intro hc <;> simp [step] at hc ⊢
  | loadingScreen percent =>
      refine ⟨?_, ?_, ?_, ?_⟩ <;> intro hc <;> simp [step] at hc ⊢
  | settleFire =>
      simp only [step]
      split
      · exact ⟨h1, h2, h3, h4⟩
      · split
        · exact ⟨h1, h2, h3, h4⟩
        · refine ⟨?_, ?_, ?_, ?_⟩ <;> intro hc <;> simp at hc ⊢
  | probeFire st wwebjsLoaded =>
      simp only [step]
      split
      · exact ⟨h1, h2, h3, h4⟩
      · split
        · exact ⟨h1, h2, h3, h4⟩
        · split
          · refine ⟨?_, ?_, ?_, ?_⟩ <;> intro hc <;> simp at hc ⊢
          · split
            · exact ⟨h1, h2, h3, h4⟩
            · exact ⟨h1, h2, h3, h4⟩

lemma qrInv_foldl (l : List ClientEvent) (s : ClientState) (h : QrInv s) :
    QrInv (l.foldl step s) := by
  induction l generalizing s with
  | nil => exact h
  | cons e t ih => exact ih _ (qrInv_step s e h)

/-- C1: the claim states that without a library `ready` event the status can
never become `"ready"` and a run ending after authentication stays at
`"authenticated"`.  The code violates this twice: the settle timer scheduled
by the `loading_screen` handler at 100% forces readiness, and the
`testClientReady` probe spawned by the `authenticated` handler forces
readiness when it observes a CONNECTED state — in both runs below no
`ClientEvent.ready` occurs, yet the status becomes `"ready"` (and is not
`"authenticated"`). -/
theorem ready_forced_without_ready_event :
    (ClientEvent.ready ∉ [ClientEvent.loadingScreen 100, ClientEvent.settleFire]) ∧
    (run [ClientEvent.loadingScreen 100, ClientEvent.settleFire]).connectionStatus = "ready" ∧
    (run [ClientEvent.loadingScreen 100, ClientEvent.settleFire]).isClientReady = true ∧
    (ClientEvent.ready ∉
      [ClientEvent.authenticated, ClientEvent.probeFire "CONNECTED" true]) ∧
    (run [ClientEvent.authenticated,
          ClientEvent.probeFire "CONNECTED" true]).connectionStatus = "ready" ∧
    (run [ClientEvent.authenticated,
          ClientEvent.probeFire "CONNECTED" true]).connectionStatus ≠ "authenticated" := by
  refine ⟨by decide, rfl, rfl, by decide, rfl, by decide⟩

/-- C2 counterexample: the biconditional `qrCodeData ≠ null ⇔ status =
"qr_ready"` fails on the reachable state after a successful `qr` event
followed by a `loading_screen` event — the `loading_screen` handler changes
the status to `"loading"` without clearing `qrCodeData`. -/
theorem qr_artifact_iff_fails :
    (run [ClientEvent.qr "token" true, ClientEvent.loadingScreen 50]).qrCodeData ≠ none ∧
    (run [ClientEvent.qr "token" true,
          ClientEvent.loadingScreen 50]).connectionStatus ≠ "qr_ready" := by
  refine ⟨by decide, by decide⟩

/-- C2 (amended): in every reachable state, status `"qr_ready"` implies a
non-null `qrCodeData`, and `qrCodeData` is null whenever the status is
`"authenticated"`, `"auth_failure"` or `"disconnected"`; the full
biconditional fails because the `loading_screen` handler (and the QR
generation error path) leave a previously generated artifact in place. -/
theorem qr_artifact_invariant_amended (evs : List ClientEvent) :
    ((run evs).connectionStatus = "qr_ready" → (run evs).qrCodeData ≠ none) ∧
    ((run evs).connectionStatus = "authenticated" → (run evs).qrCodeData = none) ∧
    ((run evs).connectionStatus = "auth_failure" → (run evs).qrCodeData = none) ∧
    ((run evs).connectionStatus = "disconnected" → (run evs).qrCodeData = none) :=
  qrInv_foldl evs initialClientState qrInv_initial

/-- Witness for the amended C2 theorem at the concrete run
`[qr "token" ok]`. -/
theorem qr_artifact_invariant_amended_witness :
    (run [ClientEvent.qr "token" true]).qrCodeData ≠ none :=
  (qr_artifact_invariant_amended [ClientEvent.qr "token" true]).1 rfl

/-- C3: one liveness-interval firing while the client is ready.  If the
first `getState()` observation is unhealthy and the re-check after the
30-second grace delay is still unhealthy, `handleClientFailure` stops the
health checks and calls `process.exit`; if the re-check is healthy the
state — including readiness — is left untouched. -/
theorem liveness_grace_period_policy (s : ClientState) (st1 st2 : String)
    (hc : s.hasClient = true) (hr : s.isClientReady = true)
    (h1 : st1 ∉ validStates) :
    (st2 ∉ validStates →
       healthCheckTick s st1 st2 =
         { s with healthChecksActive := false,
                  exitCalls := s.exitCalls + 1 }) ∧
    (st2 ∈ validStates → healthCheckTick s st1 st2 = s) := by
  constructor <;> intro h2 <;>
    simp [healthCheckTick, checkSessionHealth, hc, hr, h1, h2]

/-- Witness for C3 at concrete observations: "TIMEOUT" twice exits;
"TIMEOUT" then "CONNECTED" leaves the state unchanged. -/
theorem liveness_grace_period_policy_witness :
    healthCheckTick demoReadyState "TIMEOUT" "PAIRING" =
      { demoReadyState with healthChecksActive := false,
                            exitCalls := demoReadyState.exitCalls + 1 } ∧
    healthCheckTick demoReadyState "TIMEOUT" "CONNECTED" = demoReadyState :=
  ⟨(liveness_grace_period_policy demoReadyState "TIMEOUT" "PAIRING" rfl rfl
      (by decide)).1 (by decide),
   (liveness_grace_period_policy demoReadyState "TIMEOUT" "CONNECTED" rfl rfl
      (by decide)).2 (by decide)⟩

/-- C4: the `disconnected` handler, received while the status is ready.
For any reason other than `MANUAL_DISCONNECT` it sets the status to
`"disconnected"`, stops the health checks, clears the QR artifact, and
calls `process.exit` exactly once; for `MANUAL_DISCONNECT` it performs the
same state changes but does not call `process.exit`. -/
theorem disconnect_while_ready (s : ClientState) (reason : String)
    (_hr : s.connectionStatus = "ready") :
    (reason ≠ "MANUAL_DISCONNECT" →
       (step s (.disconnected reason)).connectionStatus = "disconnected" ∧
       (step s (.disconnected reason)).healthChecksActive = false ∧
       (step s (.disconnected reason)).qrCodeData = none ∧
       (step s (.disconnected reason)).exitCalls = s.exitCalls + 1) ∧
    (reason = "MANUAL_DISCONNECT" →
       (step s (.disconnected reason)).connectionStatus = "disconnected" ∧
       (step s (.disconnected reason)).healthChecksActive = false ∧
       (step s (.disconnected reason)).qrCodeData = none ∧
       (step s (.disconnected reason)).exitCalls = s.exitCalls) := by
  constructor <;> intro h <;> simp [step, h]

/-- Witness for C4 at the ready state with a non-manual and a manual
disconnect reason. -/
theorem disconnect_while_ready_witness :
    (step demoReadyState (.disconnected "NAVIGATION")).exitCalls =
      demoReadyState.exitCalls + 1 ∧
    (step demoReadyState (.disconnected "MANUAL_DISCONNECT")).exitCalls =
      demoReadyState.exitCalls :=
  ⟨((disconnect_while_ready demoReadyState "NAVIGATION" rfl).1
      (by decide)).2.2.2,
   ((disconnect_while_ready demoReadyState "MANUAL_DISCONNECT" rfl).2 rfl).2.2.2⟩

/-- C5: `sendWhatsAppMessage` with the ready flag down or no client handle
returns the structured not-ready failure, makes no call into the underlying
library, and leaves the global state unchanged. -/
theorem send_fails_fast_when_not_ready (s : ClientState)
    (number message : String)
    (lib : String → String → Except String LibMessage)
    (h : s.isClientReady = false ∨ s.hasClient = false) :
    sendWhatsAppMessage s number message lib =
      (.failed "WhatsApp client is not ready", [], s) := by
  rcases h with h | h <;> simp [sendWhatsAppMessage, h]

/-- Witness for C5 at the initial (disconnected) state. -/
theorem send_fails_fast_when_not_ready_witness :
    sendWhatsAppMessage initialClientState "5551234567" "hi"
        (fun _ _ => .ok ⟨"id1", 42⟩) =
      (.failed "WhatsApp client is not ready", [], initialClientState) :=
  send_fails_fast_when_not_ready initialClientState "5551234567" "hi" _
    (Or.inl rfl)

/-- C6: while ready, `sendWhatsAppMessage` calls the underlying library
exactly once; a recipient without the `@c.us` suffix gets it appended
exactly once (the library sees `number ++ "@c.us"`), and a recipient
already containing the suffix is passed through unchanged. -/
theorem send_appends_network_suffix (s : ClientState)
    (number message : String)
    (lib : String → String → Except String LibMessage)
    (hr : s.isClientReady = true) (hc : s.hasClient = true)
    (hn : number ≠ "") (hm : message ≠ "") :
    (jsIncludes number "@c.us" = false →
       (sendWhatsAppMessage s number message lib).2.1 =
         [(number ++ "@c.us", message)]) ∧
    (jsIncludes number "@c.us" = true →
       (sendWhatsAppMessage s number message lib).2.1 =
         [(number, message)]) := by
  constructor <;> intro hi
  · cases hlib : lib (number ++ "@c.us") message <;>
      simp [sendWhatsAppMessage, hr, hc, hn, hm, hi, hlib]
  · cases hlib : lib number message <;>
      simp [sendWhatsAppMessage, hr, hc, hn, hm, hi, hlib]

/-- Witness for C6: a bare number gets the suffix, a suffixed number is
passed through. -/
theorem send_appends_network_suffix_witness :
    (sendWhatsAppMessage demoReadyState "5551234567" "hi"
       (fun _ _ => .ok ⟨"msg1", 7⟩)).2.1 = [("5551234567@c.us", "hi")] ∧
    (sendWhatsAppMessage demoReadyState "555@c.us" "hi"
       (fun _ _ => .ok ⟨"msg1", 7⟩)).2.1 = [("555@c.us", "hi")] :=
  ⟨(send_appends_network_suffix demoReadyState "5551234567" "hi" _
      rfl rfl (by decide) (by decide)).1 (by decide),
   (send_appends_network_suffix demoReadyState "555@c.us" "hi" _
      rfl rfl (by decide) (by decide)).2 (by decide)⟩

/-! ### Round-trip lemmas for the session table -/

lemma filter_eq_nil_of_all_false (l : List SessionRow) (p : SessionRow → Bool)
    (h : ∀ x ∈ l, p x = false) : l.filter p = [] := by
  induction l with
  | nil => rfl
  | cons a t ih =>
      simp only [List.filter_cons, h a (List.mem_cons_self a t)]
      exact ih fun x hx => h x (List.mem_cons_of_mem a hx)

lemma filter_map_replace_nil (t : List SessionRow) (row : SessionRow)
    (h : ∀ x ∈ t, (x.client_id == row.client_id) = false) :
    ((t.map (fun x => if x.client_id == row.client_id then row else x)).filter
      (fun x => x.client_id == row.client_id && x.is_active)) = [] := by
  induction t with
  | nil => rfl
  | cons a t ih =>
      have ha := h a (List.mem_cons_self a t)
      rw [List.map_cons, if_neg (by simp [ha]), List.filter_cons,
        if_neg (by simp [ha])]
      exact ih fun x hx => h x (List.mem_cons_of_mem a hx)

lemma filter_map_replace (db : List SessionRow) (row : SessionRow)
    (hact : row.is_active = true)
    (hcount : (db.filter (fun x => x.client_id == row.client_id)).length = 1) :
    ((db.map (fun x => if x.client_id == row.client_id then row else x)).filter
      (fun x => x.client_id == row.client_id && x.is_active)) = [row] := by
  induction db with
  | nil => simp at hcount
  | cons a t ih =>
      by_cases ha : (a.client_id == row.client_id) = true
      · have hrest : (t.filter (fun x => x.client_id == row.client_id)).length = 0 := by
          rw [List.filter_cons, if_pos ha, List.length_cons] at hcount
          omega
        have hnone : ∀ x ∈ t, (x.client_id == row.client_id) = false := by
          intro x hx
          by_contra hcontra
          have hx' : x ∈ t.filter (fun x => x.client_id == row.client_id) :=
            List.mem_filter.mpr ⟨hx, by simpa using hcontra⟩
          rw [List.length_eq_zero] at hrest
          simp [hrest] at hx'
        rw [List.map_cons, if_pos ha, List.filter_cons,
          if_pos (by simp [hact]), filter_map_replace_nil t row hnone]
      · have ha' : (a.client_id == row.client_id) = false := by
          simpa using ha
        have hrest : (t.filter (fun x => x.client_id == row.client_id)).length = 1 := by
          rw [List.filter_cons, if_neg (by simp [ha'])] at hcount
          exact hcount
        rw [List.map_cons, if_neg (by simp [ha']), List.filter_cons,
          if_neg (by simp [ha'])]
        exact ih hrest

lemma fresh_append_filter (db : List SessionRow) (row : SessionRow)
    (hact : row.is_active = true)
    (h : ∀ x ∈ db, (x.client_id == row.client_id) = false) :
    ((db ++ [row]).filter
      (fun x => x.client_id == row.client_id && x.is_active)) = [row] := by
  rw [List.filter_append]
  rw [filter_eq_nil_of_all_false db _ (fun x hx => by simp [h x hx])]
  simp [hact]

/-- C7: round trip of the credential store.  A successful remote
`storeSession` followed by `retrieveSession` for the same client id returns
exactly the stored payload (given the table's `client_id` uniqueness, which
the real table enforces by constraint); and a local file save followed by a
local load for the same client id returns the same payload. -/
theorem credential_round_trip (db : List SessionRow)
    (files : List (String × String)) (dataPath clientId payload : String)
    (now : Nat)
    (uniq : (db.filter (fun x => x.client_id == clientId)).length ≤ 1) :
    ((storeSession db clientId payload now false).2 = true ∧
     retrieveSession (storeSession db clientId payload now false).1 clientId =
       .ok payload) ∧
    getLocalSession (setLocalSession files dataPath clientId payload)
      dataPath clientId = some payload := by
  refine ⟨⟨rfl, ?_⟩, ?_⟩
  · show retrieveSession
      (upsertByClientId db
        { client_id := clientId, session_data := payload,
          is_active := true, updated_at := now }) clientId = .ok payload
    set row : SessionRow :=
      { client_id := clientId, session_data := payload,
        is_active := true, updated_at := now } with hrow
    have hcid : row.client_id = clientId := rfl
    unfold upsertByClientId
    by_cases hany : (db.any (fun x => x.client_id == row.client_id)) = true
    · obtain ⟨x, hx, hpx⟩ := List.any_eq_true.mp hany
      have hone : (db.filter (fun x => x.client_id == row.client_id)).length = 1 := by
        have hge : 0 < (db.filter (fun x => x.client_id == row.client_id)).length := by
          have : x ∈ db.filter (fun x => x.client_id == row.client_id) :=
            List.mem_filter.mpr ⟨hx, hpx⟩
          exact List.length_pos.mpr (fun hnil => by simp [hnil] at this)
        have hle : (db.filter (fun x => x.client_id == row.client_id)).length ≤ 1 := by
          simpa [hcid] using uniq
        omega
      rw [if_pos hany]
      unfold retrieveSession
      rw [show (fun r : SessionRow => r.client_id == clientId && r.is_active) =
            (fun r : SessionRow => r.client_id == row.client_id && r.is_active) by rfl]
      rw [filter_map_replace db row rfl hone]
    · rw [if_neg hany]
      have hnone : ∀ x ∈ db, (x.client_id == row.client_id) = false := by
        intro x hx
        by_contra hcontra
        exact hany (List.any_eq_true.mpr ⟨x, hx, by simpa using hcontra⟩)
      unfold retrieveSession
      rw [show (fun r : SessionRow => r.client_id == clientId && r.is_active) =
            (fun r : SessionRow => r.client_id == row.client_id && r.is_active) by rfl]
      rw [fresh_append_filter db row rfl hnone]
  · simp [getLocalSession, setLocalSession, lookupFile, insertFile, List.find?]

/-- Witness for C7 on the empty table and empty file map. -/
theorem credential_round_trip_witness :
    retrieveSession (storeSession [] "default-client" "blob42" 5 false).1
      "default-client" = .ok "blob42" ∧
    getLocalSession
      (setLocalSession [] "./whatsapp-session" "default-client" "blob42")
        "./whatsapp-session" "default-client" = some "blob42" :=
  ⟨((credential_round_trip [] [] "./whatsapp-session" "default-client"
      "blob42" 5 (by decide)).1).2,
   (credential_round_trip [] [] "./whatsapp-session" "default-client"
      "blob42" 5 (by decide)).2⟩

lemma deactivate_filter_nil (db : List SessionRow) (clientId : String)
    (now : Nat) :
    ((deactivateSession db clientId now false).1.filter
      (fun r => r.client_id == clientId && r.is_active)) = [] := by
  show ((db.map (fun r => if r.client_id == clientId then
      { r with is_active := false, updated_at := now } else r)).filter
    (fun r => r.client_id == clientId && r.is_active)) = []
  induction db with
  | nil => rfl
  | cons a t ih =>
      by_cases ha : (a.client_id == clientId) = true
      · rw [List.map_cons, if_pos ha, List.filter_cons,
          if_neg (by simp)]
        exact ih
      · have ha' : (a.client_id == clientId) = false := by simpa using ha
        rw [List.map_cons, if_neg (by simp [ha']), List.filter_cons,
          if_neg (by simp [ha'])]
        exact ih

/-- C10: after `deactivateSession` succeeds for a client id, a subsequent
`retrieveSession` for that id returns the `'Session not found'` failure
(the `is_active = true` filter excludes the deactivated row); and in
general a successful retrieval only ever comes from a row whose active flag
is true. -/
theorem deactivate_then_retrieve (db : List SessionRow) (clientId : String)
    (now : Nat) :
    ((deactivateSession db clientId now false).2 = true ∧
     retrieveSession (deactivateSession db clientId now false).1 clientId =
       .error "Session not found") ∧
    (∀ payload, retrieveSession db clientId = Except.ok payload →
       ∃ r ∈ db, r.client_id = clientId ∧ r.is_active = true ∧
         r.session_data = payload) := by
  refine ⟨⟨rfl, ?_⟩, ?_⟩
  · unfold retrieveSession
    rw [deactivate_filter_nil db clientId now]
  · intro payload h
    unfold retrieveSession at h
    rcases hf : db.filter (fun r => r.client_id == clientId && r.is_active) with
      _ | ⟨r, _ | _⟩ <;> rw [hf] at h
    · simp at h
    · have hr : r ∈ db.filter (fun r => r.client_id == clientId && r.is_active) := by
        rw [hf]; exact List.mem_cons_self r []
      obtain ⟨hmem, hp⟩ := List.mem_filter.mp hr
      have hp' : (r.client_id == clientId) = true ∧ r.is_active = true := by
        simpa using hp
      exact ⟨r, hmem, by simpa using hp'.1, hp'.2, by simpa using h⟩
    · simp at h

/-- Witness for C10 on a one-row table. -/
theorem deactivate_then_retrieve_witness :
    retrieveSession
      (deactivateSession [demoRow] "default-client" 9 false).1
        "default-client" = .error "Session not found" ∧
    ∃ r ∈ [demoRow], r.client_id = "default-client" ∧ r.is_active = true ∧
      r.session_data = "blob42" :=
  ⟨((deactivate_then_retrieve [demoRow] "default-client" 9).1).2,
   (deactivate_then_retrieve [demoRow] "default-client" 9).2 "blob42" rfl⟩

/-- C8: the claim says that when the production flag selects the remote
backend and the remote backend fails during initialization, the credential
store logs the error and continues with local-backend semantics for the
remainder of the process lifetime.  The code cannot exhibit this (or any)
store behavior: the `SupabaseAuthStrategy` constructor assigns
`this.clientId` before calling `super(options)` in a class extending
`LocalAuth`, so every construction throws a `ReferenceError`.  At the
claim's scenario — production flag set, remote probe failing — construction
is an error rather than a strategy, and the same holds for every flag
combination and probe outcome, so no backend selection, fallback, or
load/save/delete is ever reachable. -/
theorem supabase_strategy_construction_always_throws :
    (∃ e, mkStrategy true false "default-client" "./whatsapp-session"
        EnsureOutcome.probeFail = Except.error e) ∧
    (∀ prod flag clientId dataPath outcome,
       ∃ e, mkStrategy prod flag clientId dataPath outcome =
         Except.error e) :=
  ⟨⟨_, rfl⟩, fun _ _ _ _ _ => ⟨_, rfl⟩⟩

/-! ### File-system frame property of initialization -/

lemma find?_key_cons_true (a : String × String) (l : List (String × String))
    (p : String) (h : (a.1 == p) = true) :
    List.find? (fun e => e.1 == p) (a :: l) = some a := by
  simp [List.find?, h]

lemma find?_key_cons_false (a : String × String) (l : List (String × String))
    (p : String) (h : (a.1 == p) = false) :
    List.find? (fun e => e.1 == p) (a :: l) =
      List.find? (fun e => e.1 == p) l := by
  simp [List.find?, h]

lemma lookupFile_eraseFile_ne (files : List (String × String)) (p q : String)
    (h : p ≠ q) :
    lookupFile (eraseFile files q) p = lookupFile files p := by
  induction files with
  | nil => rfl
  | cons a t ih =>
      simp only [lookupFile, eraseFile] at ih ⊢
      rw [List.filter_cons]
      by_cases haq : (a.1 == q) = true
      · have haq' : a.1 = q := by simpa using haq
        have hap : (a.1 == p) = false := by
          simp only [haq', beq_eq_false_iff_ne, ne_eq]
          exact fun hqp => h hqp.symm
        rw [if_neg (by simp [haq]), find?_key_cons_false a t p hap]
        exact ih
      · have haq' : (a.1 == q) = false := by simpa using haq
        rw [if_pos (by simp [haq'])]
        by_cases hap : (a.1 == p) = true
        · rw [find?_key_cons_true a _ p hap, find?_key_cons_true a t p hap]
        · have hap' : (a.1 == p) = false := by simpa using hap
          rw [find?_key_cons_false a _ p hap', find?_key_cons_false a t p hap']
          exact ih

lemma lookupFile_insertFile_ne (files : List (String × String))
    (p q v : String) (h : p ≠ q) :
    lookupFile (insertFile files q v) p = lookupFile files p := by
  rw [insertFile, lookupFile,
    find?_key_cons_false (q, v) _ p (by simpa using h.symm)]
  exact lookupFile_eraseFile_ne files p q h

/-- C9: client initialization performs no eviction.  The only file it
touches is the write probe `sessionPath ++ "/.test"`: every other path maps
to the same contents before and after `initializeWhatsAppClient`'s
file-system effects; the directory set at most gains the session directory;
and `cleanupCorruptedSessions` — the only eviction entry point, reachable
only through the administrative `cleanupSessions` call — is itself a no-op
in the current client. -/
theorem init_no_session_eviction (fs : FileSystem) (sessionPath p : String)
    (h : p ≠ sessionPath ++ "/.test") :
    lookupFile (initializeClientFS fs sessionPath).files p =
      lookupFile fs.files p ∧
    (initializeClientFS fs sessionPath).dirs =
      (if fs.dirs.contains sessionPath then fs.dirs
       else sessionPath :: fs.dirs) ∧
    cleanupCorruptedSessionsFS fs = fs := by
  refine ⟨?_, ?_, rfl⟩
  · show lookupFile
      (eraseFile
        (insertFile
          (if fs.dirs.contains sessionPath then fs
           else { fs with dirs := sessionPath :: fs.dirs }).files
          (sessionPath ++ "/.test") "test")
        (sessionPath ++ "/.test")) p = lookupFile fs.files p
    rw [lookupFile_eraseFile_ne _ _ _ h, lookupFile_insertFile_ne _ _ _ _ h]
    by_cases hd : sessionPath ∈ fs.dirs <;> simp [hd]
  · show (if fs.dirs.contains sessionPath then fs
        else { fs with dirs := sessionPath :: fs.dirs }).dirs = _
    by_cases hd : sessionPath ∈ fs.dirs <;> simp [hd]

/-- Witness for C9: the existing session file survives initialization with
its contents intact. -/
theorem init_no_session_eviction_witness :
    lookupFile (initializeClientFS demoFS "./whatsapp-session").files
      "./whatsapp-session/session.json" = some "sess" := by
  rw [(init_no_session_eviction demoFS "./whatsapp-session"
    "./whatsapp-session/session.json" (by decide)).1]
  rfl

end WhatsappBackend
